import Mathlib

/-!
# Verification of the pygrocy2 Grocy API client

A shallow embedding of the pygrocy2 library (Grocy REST API client) in Lean 4,
together with theorems settling the claims of the specification.

The embedding models:
* JSON payloads (`Json`) with Python-style truthiness (`jsonTruthy`);
* the transport layer (`Transport`, the four `_do_*_request` verbs of
  `GrocyApiClient`), where a call both returns a result and records the list
  of HTTP requests that were issued;
* the pydantic response models with their field validators
  (`ChoreData`, `StockLogResponse`, `UserDto`, `MealPlanSectionResponse`,
  `SystemConfigDto`, ...), as executable decoders over `Json`;
* the domain models with hydrate operations (`ChoreLog.get_details`,
  `Equipment.get_details`) and the manager operations built on them
  (`ChoreLogManager.list`, `BatteryManager.list`, ...).

Machine floats in the source carry only integral values in every scenario the
claims mention, so JSON numbers are modelled as `Int`.  Datetime parsing is
abstracted: a `DateTime` wraps the raw wire string, any nonempty string being
accepted, since no claim depends on calendar arithmetic.
-/

/-- A JSON value.  Objects are association lists in wire order (Python `dict`s
preserve insertion order). -/
inductive Json where
  | str : String → Json
  | int : Int → Json
  | bool : Bool → Json
  | null : Json
  | arr : List Json → Json
  | obj : List (String × Json) → Json
deriving Repr

/-- Python truthiness of a JSON value: `None`, `""`, `0`, `False`, `[]` and
`{}` are falsy, everything else truthy.  Mirrors the `if parsed_json:` guards
throughout `grocy_api_client.py`. -/
def jsonTruthy : Json → Bool
  | .str s => s ≠ ""
  | .int n => n ≠ 0
  | .bool b => b
  | .null => false
  | .arr xs => ¬ xs.isEmpty
  | .obj fs => ¬ fs.isEmpty

/-- Look up a field of a JSON object association list (first occurrence, as in
a Python dict). -/
def getField (fields : List (String × Json)) (name : String) : Option Json :=
  (fields.find? (fun p => p.1 == name)).map (fun p => p.2)

/-- Errors surfaced by the client.
`requestFailed` embeds `GrocyError` raised on any HTTP status ≥ 400.
Modelled from the spec: `errors.py` is not part of the sources at hand; the
spec states that the error for a failed request ("`RequestFailed`") carries
the response status code and the raw response body.
`invalidResponse` embeds a pydantic `ValidationError` on a malformed body and
carries the offending field name; `runtimeError` embeds a Python runtime
error (e.g. `AttributeError` from accessing an attribute of `None`). -/
inductive ApiError where
  | requestFailed (statusCode : Nat) (rawBody : Option Json)
  | invalidResponse (field : String)
  | runtimeError
deriving Repr

/-- A parsed wire datetime.  Wraps the raw string; the embedding accepts any
nonempty string where pydantic parses an ISO timestamp, since no claim
depends on the parsed calendar value. -/
structure DateTime where
  raw : String
deriving Repr, DecidableEq

/-- A body for a PUT request: either structured JSON (sent with a JSON
content type) or raw bytes (octet-stream), as distinguished by
`_do_put_request`. -/
inductive PutBody where
  | json : Json → PutBody
  | raw : String → PutBody
deriving Repr

/-- An HTTP request issued by the client.  GET carries the optional
`query[]` filter list (`[]` meaning no filters, matching the falsy check on
`query_filters`). -/
inductive Req where
  | get (path : String) (queryFilters : List String)
  | post (path : String) (body : Option Json)
  | put (path : String) (body : PutBody)
  | delete (path : String)
deriving Repr

/-- An HTTP response: status code and parsed body (`none` models an empty
body, i.e. `len(resp.content) == 0`). -/
structure HttpResponse where
  status : Nat
  content : Option Json
deriving Repr

/-- A fixed deterministic transport: a pure function from request to
response. -/
def Transport := Req → HttpResponse

/-- The result of a client call: the returned value or error, together with
the list of HTTP requests issued, in order. -/
abbrev CallResult (α : Type) := Except ApiError α × List Req

/-- Sequencing of two logged calls: on error the error of the first call and
request log are returned (a raised exception aborts the rest), otherwise the
logs are concatenated. -/
def andThen (x : CallResult α) (f : α → CallResult β) : CallResult β :=
  match x with
  | (.error e, r) => (.error e, r)
  | (.ok v, r) =>
    match f v with
    | (y, r2) => (y, r ++ r2)

/-- A pure value as a logged call (no request issued). -/
def pureCall (v : α) : CallResult α := (.ok v, [])

/-- Lift a pure decode result into a logged call. -/
def liftDecode (x : Except ApiError α) : CallResult α := (x, [])

/-- Model of `GrocyApiClient._do_get_request`: issue a GET; status ≥ 400 raises
`GrocyError`, a nonempty body is parsed as JSON, an empty body gives
`None`. -/
def doGetRequest (t : Transport) (endUrl : String)
    (queryFilters : List String) : CallResult (Option Json) :=
  let req := Req.get endUrl queryFilters
  let resp := t req
  if 400 ≤ resp.status then
    (.error (.requestFailed resp.status resp.content), [req])
  else
    (.ok resp.content, [req])

/-- Model of `GrocyApiClient._do_post_request`. -/
def doPostRequest (t : Transport) (endUrl : String)
    (data : Option Json) : CallResult (Option Json) :=
  let req := Req.post endUrl data
  let resp := t req
  if 400 ≤ resp.status then
    (.error (.requestFailed resp.status resp.content), [req])
  else
    (.ok resp.content, [req])

/-- Model of `GrocyApiClient._do_put_request`. -/
def doPutRequest (t : Transport) (endUrl : String)
    (data : PutBody) : CallResult (Option Json) :=
  let req := Req.put endUrl data
  let resp := t req
  if 400 ≤ resp.status then
    (.error (.requestFailed resp.status resp.content), [req])
  else
    (.ok resp.content, [req])

/-- Model of `GrocyApiClient._do_delete_request`. -/
def doDeleteRequest (t : Transport) (endUrl : String) : CallResult (Option Json) :=
  let req := Req.delete endUrl
  let resp := t req
  if 400 ≤ resp.status then
    (.error (.requestFailed resp.status resp.content), [req])
  else
    (.ok resp.content, [req])

/-! ## Field decoding helpers (pydantic semantics) -/

/-- Decode a JSON value as an `int` (pydantic lax mode also coerces numeric
strings). -/
def decodeIntJson : Json → Option Int
  | .int n => some n
  | .str s => s.toInt?
  | _ => none

/-- Decode a JSON value as a `str`. -/
def decodeStrJson : Json → Option String
  | .str s => some s
  | _ => none

/-- Decode a JSON value as a `bool` (pydantic lax mode also coerces `0`/`1`
integers and strings, which Grocy uses on the wire). -/
def decodeBoolJson : Json → Option Bool
  | .bool b => some b
  | .int 0 => some false
  | .int 1 => some true
  | .str "0" => some false
  | .str "1" => some true
  | _ => none

/-- Decode a JSON value as a `datetime`: a nonempty string. -/
def decodeDateTimeJson : Json → Option DateTime
  | .str s => if s = "" then none else some ⟨s⟩
  | _ => none

/-- Decode a JSON value as a `dict`. -/
def decodeDictJson : Json → Option Json
  | .obj fs => some (.obj fs)
  | _ => none

/-- A required model field: missing or undecodable values fail validation. -/
def reqField (fs : List (String × Json)) (name : String)
    (dec : Json → Option α) : Except ApiError α :=
  match getField fs name with
  | none => .error (.invalidResponse name)
  | some j =>
    match dec j with
    | some v => .ok v
    | none => .error (.invalidResponse name)

/-- A required model field with a declared default: the default is used when
the field is missing (e.g. `track_count: int = 0`, `spoiled: bool = False`). -/
def reqFieldDefault (fs : List (String × Json)) (name : String)
    (dec : Json → Option α) (dflt : α) : Except ApiError α :=
  match getField fs name with
  | none => .ok dflt
  | some j =>
    match dec j with
    | some v => .ok v
    | none => .error (.invalidResponse name)

/-- An optional model field (`τ | None = None`): missing or `null` decodes
to `none`; a present value of the wrong shape fails validation. -/
def optField (fs : List (String × Json)) (name : String)
    (dec : Json → Option α) : Except ApiError (Option α) :=
  match getField fs name with
  | none => .ok none
  | some .null => .ok none
  | some j =>
    match dec j with
    | some v => .ok (some v)
    | none => .error (.invalidResponse name)

/-- An optional model field with a non-`None` default (e.g.
`period_days: int | None = 0`): missing decodes to the default, explicit
`null` to `none`. -/
def optFieldDefault (fs : List (String × Json)) (name : String)
    (dec : Json → Option α) (dflt : Option α) : Except ApiError (Option α) :=
  match getField fs name with
  | none => .ok dflt
  | some .null => .ok none
  | some j =>
    match dec j with
    | some v => .ok (some v)
    | none => .error (.invalidResponse name)

/-- Model of `_none_if_empty_str` as a pre-validator on an optional field
(`_field_not_empty_validator`): an empty-string wire value is coerced to
`None` before type validation. -/
def optFieldEmptyToNone (fs : List (String × Json)) (name : String)
    (dec : Json → Option α) : Except ApiError (Option α) :=
  match getField fs name with
  | none => .ok none
  | some .null => .ok none
  | some (.str s) =>
    if s = "" then .ok none
    else
      match dec (.str s) with
      | some v => .ok (some v)
      | none => .error (.invalidResponse name)
  | some j =>
    match dec j with
    | some v => .ok (some v)
    | none => .error (.invalidResponse name)

/-- A required nested-model field, decoded by a sub-model decoder. -/
def reqFieldNested (fs : List (String × Json)) (name : String)
    (dec : Json → Except ApiError α) : Except ApiError α :=
  match getField fs name with
  | none => .error (.invalidResponse name)
  | some j => dec j

/-- An optional nested-model field. -/
def optFieldNested (fs : List (String × Json)) (name : String)
    (dec : Json → Except ApiError α) : Except ApiError (Option α) :=
  match getField fs name with
  | none => .ok none
  | some .null => .ok none
  | some j => (dec j).map some

/-! ## Response models (`grocy_api_client.py`) -/

/-- Model of `TransactionType` stock transaction enumeration. -/
inductive TransactionType where
  | purchase
  | consume
  | inventory_correction
  | product_opened
deriving Repr, DecidableEq

/-- Parse a wire string as a `TransactionType` member. -/
def parseTransactionType : String → Option TransactionType
  | "purchase" => some .purchase
  | "consume" => some .consume
  | "inventory-correction" => some .inventory_correction
  | "product-opened" => some .product_opened
  | _ => none

/-- The wire value of a `TransactionType` member. -/
def transactionTypeValue : TransactionType → String
  | .purchase => "purchase"
  | .consume => "consume"
  | .inventory_correction => "inventory-correction"
  | .product_opened => "product-opened"

/-- Model of `ChoreData` response model for a chore entity. -/
structure ChoreData where
  id : Int
  name : String
  description : Option String
  period_type : String
  period_config : Option String
  period_days : Option Int
  track_date_only : Bool
  rollover : Bool
  assignment_type : Option String
  assignment_config : Option String
  next_execution_assigned_to_user_id : Option Int
  userfields : Option Json
deriving Repr

/-- Decode `ChoreData` from a JSON payload.  The only field with the
empty-string pre-validator is `next_execution_assigned_to_user_id`;
`period_type` and `assignment_type` are declared as plain `str`. -/
def decodeChoreData (j : Json) : Except ApiError ChoreData :=
  match j with
  | .obj fs => do
    let id ← reqField fs "id" decodeIntJson
    let name ← reqField fs "name" decodeStrJson
    let description ← optField fs "description" decodeStrJson
    let period_type ← reqField fs "period_type" decodeStrJson
    let period_config ← optField fs "period_config" decodeStrJson
    let period_days ← optFieldDefault fs "period_days" decodeIntJson (some 0)
    let track_date_only ← reqField fs "track_date_only" decodeBoolJson
    let rollover ← reqField fs "rollover" decodeBoolJson
    let assignment_type ← optField fs "assignment_type" decodeStrJson
    let assignment_config ← optField fs "assignment_config" decodeStrJson
    let next_execution_assigned_to_user_id ←
      optFieldEmptyToNone fs "next_execution_assigned_to_user_id" decodeIntJson
    let userfields ← optField fs "userfields" decodeDictJson
    pure {
      id := id, name := name, description := description
      period_type := period_type, period_config := period_config
      period_days := period_days, track_date_only := track_date_only
      rollover := rollover, assignment_type := assignment_type
      assignment_config := assignment_config
      next_execution_assigned_to_user_id := next_execution_assigned_to_user_id
      userfields := userfields }
  | _ => .error (.invalidResponse "ChoreData")

/-- Model of `UserDto` response model for a user. -/
structure UserDto where
  id : Int
  username : String
  first_name : Option String
  last_name : Option String
  display_name : Option String
deriving Repr, DecidableEq

/-- Decode `UserDto` from a JSON payload. -/
def decodeUserDto (j : Json) : Except ApiError UserDto :=
  match j with
  | .obj fs => do
    let id ← reqField fs "id" decodeIntJson
    let username ← reqField fs "username" decodeStrJson
    let first_name ← optField fs "first_name" decodeStrJson
    let last_name ← optField fs "last_name" decodeStrJson
    let display_name ← optField fs "display_name" decodeStrJson
    pure { id := id, username := username, first_name := first_name
           last_name := last_name, display_name := display_name }
  | _ => .error (.invalidResponse "UserDto")

/-- Model of `ChoreLogResponse` response model for a chore log record. -/
structure ChoreLogResponse where
  id : Int
  chore_id : Int
  tracked_time : DateTime
  done_by_user_id : Int
  row_created_timestamp : DateTime
  undone : Bool
  undone_timestamp : Option DateTime
  skipped : Bool
  scheduled_execution_time : Option DateTime
  userfields : Option Json
deriving Repr

/-- Decode `ChoreLogResponse` from a JSON payload. -/
def decodeChoreLogResponse (j : Json) : Except ApiError ChoreLogResponse :=
  match j with
  | .obj fs => do
    let id ← reqField fs "id" decodeIntJson
    let chore_id ← reqField fs "chore_id" decodeIntJson
    let tracked_time ← reqField fs "tracked_time" decodeDateTimeJson
    let done_by_user_id ← reqField fs "done_by_user_id" decodeIntJson
    let row_created_timestamp ← reqField fs "row_created_timestamp" decodeDateTimeJson
    let undone ← reqField fs "undone" decodeBoolJson
    let undone_timestamp ← optField fs "undone_timestamp" decodeDateTimeJson
    let skipped ← reqField fs "skipped" decodeBoolJson
    let scheduled_execution_time ← optField fs "scheduled_execution_time" decodeDateTimeJson
    let userfields ← optField fs "userfields" decodeDictJson
    pure { id := id, chore_id := chore_id, tracked_time := tracked_time
           done_by_user_id := done_by_user_id
           row_created_timestamp := row_created_timestamp
           undone := undone, undone_timestamp := undone_timestamp
           skipped := skipped
           scheduled_execution_time := scheduled_execution_time
           userfields := userfields }
  | _ => .error (.invalidResponse "ChoreLogResponse")

/-- Model of `ChoreDetailsResponse` response model for full chore details. -/
structure ChoreDetailsResponse where
  chore : ChoreData
  last_tracked : Option DateTime
  next_estimated_execution_time : Option DateTime
  track_count : Int
  next_execution_assigned_user : Option UserDto
  last_done_by : Option UserDto
deriving Repr

/-- Decode `ChoreDetailsResponse` from a JSON payload. -/
def decodeChoreDetailsResponse (j : Json) : Except ApiError ChoreDetailsResponse :=
  match j with
  | .obj fs => do
    let chore ← reqFieldNested fs "chore" decodeChoreData
    let last_tracked ← optField fs "last_tracked" decodeDateTimeJson
    let next_estimated_execution_time ←
      optField fs "next_estimated_execution_time" decodeDateTimeJson
    let track_count ← reqFieldDefault fs "track_count" decodeIntJson 0
    let next_execution_assigned_user ←
      optFieldNested fs "next_execution_assigned_user" decodeUserDto
    let last_done_by ← optFieldNested fs "last_done_by" decodeUserDto
    pure { chore := chore, last_tracked := last_tracked
           next_estimated_execution_time := next_estimated_execution_time
           track_count := track_count
           next_execution_assigned_user := next_execution_assigned_user
           last_done_by := last_done_by }
  | _ => .error (.invalidResponse "ChoreDetailsResponse")

/-- Model of `StockLogResponse` response model for a stock transaction log entry. -/
structure StockLogResponse where
  id : Int
  product_id : Int
  amount : Int
  best_before_date : DateTime
  purchased_date : DateTime
  used_date : Option DateTime
  spoiled : Bool
  stock_id : String
  transaction_id : String
  transaction_type : TransactionType
deriving Repr

/-- Decode `StockLogResponse` from a JSON payload.  `transaction_type` is
typed as the `TransactionType` enumeration, so unrecognized wire values fail
validation. -/
def decodeStockLogResponse (j : Json) : Except ApiError StockLogResponse :=
  match j with
  | .obj fs => do
    let id ← reqField fs "id" decodeIntJson
    let product_id ← reqField fs "product_id" decodeIntJson
    let amount ← reqField fs "amount" decodeIntJson
    let best_before_date ← reqField fs "best_before_date" decodeDateTimeJson
    let purchased_date ← reqField fs "purchased_date" decodeDateTimeJson
    let used_date ← optField fs "used_date" decodeDateTimeJson
    let spoiled ← reqFieldDefault fs "spoiled" decodeBoolJson false
    let stock_id ← reqField fs "stock_id" decodeStrJson
    let transaction_id ← reqField fs "transaction_id" decodeStrJson
    let transaction_type ← reqField fs "transaction_type"
      (fun v => match v with
        | .str s => parseTransactionType s
        | _ => none)
    pure { id := id, product_id := product_id, amount := amount
           best_before_date := best_before_date
           purchased_date := purchased_date, used_date := used_date
           spoiled := spoiled, stock_id := stock_id
           transaction_id := transaction_id
           transaction_type := transaction_type }
  | _ => .error (.invalidResponse "StockLogResponse")

/-- Model of `MealPlanSectionResponse` response model for a meal plan section. -/
structure MealPlanSectionResponse where
  id : Option Int
  name : Option String
  sort_number : Option Int
  row_created_timestamp : DateTime
deriving Repr

/-- Decode `MealPlanSectionResponse` from a JSON payload
(`sort_number` carries the empty-string pre-validator). -/
def decodeMealPlanSectionResponse (j : Json) : Except ApiError MealPlanSectionResponse :=
  match j with
  | .obj fs => do
    let id ← optField fs "id" decodeIntJson
    let name ← optField fs "name" decodeStrJson
    let sort_number ← optFieldEmptyToNone fs "sort_number" decodeIntJson
    let row_created_timestamp ← reqField fs "row_created_timestamp" decodeDateTimeJson
    pure { id := id, name := name, sort_number := sort_number
           row_created_timestamp := row_created_timestamp }
  | _ => .error (.invalidResponse "MealPlanSectionResponse")

/-- Model of `SystemConfigDto` response model for system configuration. -/
structure SystemConfigDto where
  username : String
  base_path : String
  base_url : String
  mode : String
  default_locale : String
  locale : String
  currency : String
  feature_flags : List (String × Json)
deriving Repr

/-- Model of `str.startswith`, written over the character lists so that it reduces by
computation. -/
def strStartsWith (s pre : String) : Bool :=
  pre.data.isPrefixOf s.data

/-- Model of `SystemConfigDto.feature_flags_root_validator`: collect every wire field
whose name starts with `FEATURE_FLAG_` into the `feature_flags` mapping. -/
def featureFlagsRootValidator (fs : List (String × Json)) : List (String × Json) :=
  fs.filter (fun p => strStartsWith p.1 "FEATURE_FLAG_")

/-- Decode `SystemConfigDto` from a JSON payload.  The root validator runs
first and stores the collected flags under `feature_flags`; the named fields
are read through their wire aliases. -/
def decodeSystemConfigDto (j : Json) : Except ApiError SystemConfigDto :=
  match j with
  | .obj fs => do
    let username ← reqField fs "USER_USERNAME" decodeStrJson
    let base_path ← reqField fs "BASE_PATH" decodeStrJson
    let base_url ← reqField fs "BASE_URL" decodeStrJson
    let mode ← reqField fs "MODE" decodeStrJson
    let default_locale ← reqField fs "DEFAULT_LOCALE" decodeStrJson
    let locale ← reqField fs "LOCALE" decodeStrJson
    let currency ← reqField fs "CURRENCY" decodeStrJson
    pure { username := username, base_path := base_path, base_url := base_url
           mode := mode, default_locale := default_locale, locale := locale
           currency := currency
           feature_flags := featureFlagsRootValidator fs }
  | _ => .error (.invalidResponse "SystemConfigDto")

/-- Model of `EquipmentData` response model for an equipment entity
(`created_timestamp` is aliased from wire `row_created_timestamp`). -/
structure EquipmentData where
  id : Int
  name : String
  description : Option String
  instruction_manual_file_name : Option String
  created_timestamp : DateTime
  userfields : Option Json
deriving Repr

/-- Decode `EquipmentData` from a JSON payload. -/
def decodeEquipmentData (j : Json) : Except ApiError EquipmentData :=
  match j with
  | .obj fs => do
    let id ← reqField fs "id" decodeIntJson
    let name ← reqField fs "name" decodeStrJson
    let description ← optField fs "description" decodeStrJson
    let instruction_manual_file_name ←
      optField fs "instruction_manual_file_name" decodeStrJson
    let created_timestamp ← reqField fs "row_created_timestamp" decodeDateTimeJson
    let userfields ← optField fs "userfields" decodeDictJson
    pure { id := id, name := name, description := description
           instruction_manual_file_name := instruction_manual_file_name
           created_timestamp := created_timestamp, userfields := userfields }
  | _ => .error (.invalidResponse "EquipmentData")

/-- Model of `EquipmentDetailsResponse` response model wrapping an `EquipmentData`. -/
structure EquipmentDetailsResponse where
  equipment : EquipmentData
deriving Repr

/-- Model of `CurrentBatteryResponse` response model for a battery summary. -/
structure CurrentBatteryResponse where
  id : Int
  last_tracked_time : Option DateTime
  next_estimated_charge_time : Option DateTime
deriving Repr

/-- Decode `CurrentBatteryResponse` from a JSON payload. -/
def decodeCurrentBatteryResponse (j : Json) : Except ApiError CurrentBatteryResponse :=
  match j with
  | .obj fs => do
    let id ← reqField fs "id" decodeIntJson
    let last_tracked_time ← optField fs "last_tracked_time" decodeDateTimeJson
    let next_estimated_charge_time ←
      optField fs "next_estimated_charge_time" decodeDateTimeJson
    pure { id := id, last_tracked_time := last_tracked_time
           next_estimated_charge_time := next_estimated_charge_time }
  | _ => .error (.invalidResponse "CurrentBatteryResponse")

/-- Model of `BatteryData` response model for a battery entity. -/
structure BatteryData where
  id : Int
  name : String
  description : Option String
  used_in : Option String
  charge_interval_days : Int
  created_timestamp : DateTime
  userfields : Option Json
deriving Repr

/-- Decode `BatteryData` from a JSON payload. -/
def decodeBatteryData (j : Json) : Except ApiError BatteryData :=
  match j with
  | .obj fs => do
    let id ← reqField fs "id" decodeIntJson
    let name ← reqField fs "name" decodeStrJson
    let description ← optField fs "description" decodeStrJson
    let used_in ← optField fs "used_in" decodeStrJson
    let charge_interval_days ← reqField fs "charge_interval_days" decodeIntJson
    let created_timestamp ← reqField fs "row_created_timestamp" decodeDateTimeJson
    let userfields ← optField fs "userfields" decodeDictJson
    pure { id := id, name := name, description := description
           used_in := used_in, charge_interval_days := charge_interval_days
           created_timestamp := created_timestamp, userfields := userfields }
  | _ => .error (.invalidResponse "BatteryData")

/-- Model of `BatteryDetailsResponse` response model for full battery details. -/
structure BatteryDetailsResponse where
  battery : BatteryData
  charge_cycles_count : Int
  last_charged : Option DateTime
  last_tracked_time : Option DateTime
  next_estimated_charge_time : Option DateTime
deriving Repr

/-- Decode `BatteryDetailsResponse` from a JSON payload. -/
def decodeBatteryDetailsResponse (j : Json) : Except ApiError BatteryDetailsResponse :=
  match j with
  | .obj fs => do
    let battery ← reqFieldNested fs "battery" decodeBatteryData
    let charge_cycles_count ← reqField fs "charge_cycles_count" decodeIntJson
    let last_charged ← optField fs "last_charged" decodeDateTimeJson
    let last_tracked_time ← optField fs "last_tracked_time" decodeDateTimeJson
    let next_estimated_charge_time ←
      optField fs "next_estimated_charge_time" decodeDateTimeJson
    pure { battery := battery, charge_cycles_count := charge_cycles_count
           last_charged := last_charged, last_tracked_time := last_tracked_time
           next_estimated_charge_time := next_estimated_charge_time }
  | _ => .error (.invalidResponse "BatteryDetailsResponse")

/-! ## Client operations (`GrocyApiClient`) -/

/-- Decode every element of a JSON list, failing on the first malformed
element (the Python list comprehension `[Model(**x) for x in parsed_json]`
raises on the first invalid item). -/
def decodeList (dec : Json → Except ApiError α) : List Json → Except ApiError (List α)
  | [] => .ok []
  | x :: xs => do
    let v ← dec x
    let vs ← decodeList dec xs
    pure (v :: vs)

/-- The list-endpoint decode pattern
`if parsed_json: return [Model(**x) for x in parsed_json]` / `return []`:
an empty body or a falsy payload yields `[]` (an empty list is falsy, so the
comprehension over it coincides with the fallthrough); iterating a truthy
non-list raises at runtime. -/
def decodeListWhenTruthy (dec : Json → Except ApiError α) :
    Option Json → Except ApiError (List α)
  | some (.arr xs) => decodeList dec xs
  | some j => if jsonTruthy j then .error .runtimeError else .ok []
  | none => .ok []

/-- Model of `GrocyApiClient.get_userfields`: the raw parsed JSON is returned. -/
def getUserfields (t : Transport) (entity : String) (objectId : Int) :
    CallResult (Option Json) :=
  doGetRequest t ("userfields/" ++ entity ++ "/" ++ toString objectId) []

/-- Model of `GrocyApiClient.get_chore`. -/
def getChore (t : Transport) (choreId : Int) :
    CallResult (Option ChoreDetailsResponse) :=
  andThen (doGetRequest t ("chores/" ++ toString choreId) []) (fun content =>
    match content with
    | none => pureCall none
    | some j =>
      if jsonTruthy j then liftDecode ((decodeChoreDetailsResponse j).map some)
      else pureCall none)

/-- Model of `GrocyApiClient.get_user`: `query_params` are built from `user_id` but
never passed to the request; the whole user list is fetched and
`parsed_json[0]` — the first element, regardless of `user_id` — is decoded.
An empty or falsy payload yields `None`. -/
def getUser (t : Transport) (userId : Int) : CallResult (Option UserDto) :=
  let _queryParams : List String :=
    if userId ≠ 0 then ["id=" ++ toString userId] else []
  andThen (doGetRequest t "users" []) (fun content =>
    match content with
    | some (.arr (x :: _)) => liftDecode ((decodeUserDto x).map some)
    | some j =>
      if jsonTruthy j then (.error .runtimeError, []) else pureCall none
    | none => pureCall none)

/-- Model of `GrocyApiClient.get_chores_log`. -/
def getChoresLog (t : Transport) (qf : List String) :
    CallResult (List ChoreLogResponse) :=
  andThen (doGetRequest t "objects/chores_log" qf) (fun content =>
    liftDecode (decodeListWhenTruthy decodeChoreLogResponse content))

/-- Model of `GrocyApiClient.get_batteries`. -/
def getBatteries (t : Transport) (qf : List String) :
    CallResult (List CurrentBatteryResponse) :=
  andThen (doGetRequest t "batteries" qf) (fun content =>
    liftDecode (decodeListWhenTruthy decodeCurrentBatteryResponse content))

/-- Model of `GrocyApiClient.get_battery`. -/
def getBattery (t : Transport) (batteryId : Int) :
    CallResult (Option BatteryDetailsResponse) :=
  andThen (doGetRequest t ("batteries/" ++ toString batteryId) []) (fun content =>
    match content with
    | none => pureCall none
    | some j =>
      if jsonTruthy j then liftDecode ((decodeBatteryDetailsResponse j).map some)
      else pureCall none)

/-- Python `str` rendering of an optional integer (`None` prints as
`"None"` inside an f-string). -/
def pyStrOptInt : Option Int → String
  | some n => toString n
  | none => "None"

/-- Model of `GrocyApiClient.get_equipment`: fetch `objects/equipment/{id}`, decode an
`EquipmentData` and wrap it in an `EquipmentDetailsResponse`.  The id comes
from the (possibly unset) stored id of the caller. -/
def getEquipment (t : Transport) (equipmentId : Option Int) :
    CallResult (Option EquipmentDetailsResponse) :=
  andThen (doGetRequest t ("objects/equipment/" ++ pyStrOptInt equipmentId) [])
    (fun content =>
      match content with
      | none => pureCall none
      | some j =>
        if jsonTruthy j then
          liftDecode ((decodeEquipmentData j).map (fun d => some ⟨d⟩))
        else pureCall none)

/-- Model of `GrocyApiClient.get_meal_plan_section`: an id-filtered query (the filter
is baked into the URL); the decoded section is returned exactly when the
payload is truthy and has length 1, otherwise `None`.  (A truthy non-list
body, which the endpoint never produces, fails at runtime in Python and is
modelled as `runtimeError`.) -/
def getMealPlanSection (t : Transport) (sectionId : Int) :
    CallResult (Option MealPlanSectionResponse) :=
  andThen
    (doGetRequest t ("objects/meal_plan_sections?query%5B%5D=id%3D" ++ toString sectionId) [])
    (fun content =>
      match content with
      | none => pureCall none
      | some (.arr [x]) => liftDecode ((decodeMealPlanSectionResponse x).map some)
      | some (.arr _) => pureCall none
      | some j =>
        if jsonTruthy j then (.error .runtimeError, []) else pureCall none)

/-- Modelled from the spec: `localize_datetime` and the `%Y-%m-%d` rendering
of `utils.py` are not among the sources at hand; no claim exercises them, so
the rendering is abstracted as the wrapped raw string. -/
def formatYmd (d : DateTime) : String := d.raw

/-- The response handling of `inventory_product`: on a truthy list every
element is decoded (`[StockLogResponse(**r) for r in parsed_json]`) and the
first decoded entry (`stockLog[0]`) is kept; an empty body or falsy payload
yields `None`; a truthy non-list payload raises at runtime. -/
def inventoryDecodeBody : Option Json → CallResult (Option StockLogResponse)
  | some (.arr xs) =>
    if xs.isEmpty then pureCall none
    else liftDecode ((decodeList decodeStockLogResponse xs).map (fun ds => ds.head?))
  | some j =>
    if jsonTruthy j then (.error .runtimeError, []) else pureCall none
  | none => pureCall none

/-- Model of `GrocyApiClient.inventory_product`: the body starts as
`{"new_amount": n}` and each optional argument adds its key only when
present; the response list is decoded element by element and the first
decoded entry is returned. -/
def inventoryProduct (t : Transport) (productId : Int) (newAmount : Int)
    (bestBeforeDate : Option DateTime) (shoppingLocationId : Option Int)
    (locationId : Option Int) (price : Option Int) :
    CallResult (Option StockLogResponse) :=
  let data0 := [("new_amount", Json.int newAmount)]
  let data1 := match bestBeforeDate with
    | some d => data0 ++ [("best_before_date", Json.str (formatYmd d))]
    | none => data0
  let data2 := match shoppingLocationId with
    | some i => data1 ++ [("shopping_location_id", Json.int i)]
    | none => data1
  let data3 := match locationId with
    | some i => data2 ++ [("location_id", Json.int i)]
    | none => data2
  let data4 := match price with
    | some p => data3 ++ [("price", Json.int p)]
    | none => data3
  andThen
    (doPostRequest t ("stock/products/" ++ toString productId ++ "/inventory") (some (Json.obj data4)))
    inventoryDecodeBody

/-! ## Domain models and managers -/

/-- The `User` domain object, as constructed field by field in
`ChoreLog.get_details` and `UserManager`. -/
structure User where
  id : Int
  username : String
  first_name : Option String
  last_name : Option String
  display_name : Option String
deriving Repr, DecidableEq

/-- The `Chore` domain object.
Modelled from the spec: `data_models/chore.py` is not among the sources at
hand; per the spec a chore carries identity, name, scheduling and assignment
configuration, last/next execution times and optionally resolved users, and
`from_details_response` is a pure projection of the details payload. -/
structure Chore where
  id : Int
  name : String
  period_type : String
  assignment_type : Option String
  last_tracked : Option DateTime
  next_estimated_execution_time : Option DateTime
  track_count : Int
  next_execution_assigned_user : Option UserDto
  last_done_by : Option UserDto
deriving Repr

/-- Modelled from the spec: `Chore.from_details_response` projects a
`ChoreDetailsResponse` into a `Chore` with no further transport calls. -/
def Chore.fromDetailsResponse (r : ChoreDetailsResponse) : Chore :=
  { id := r.chore.id, name := r.chore.name
    period_type := r.chore.period_type
    assignment_type := r.chore.assignment_type
    last_tracked := r.last_tracked
    next_estimated_execution_time := r.next_estimated_execution_time
    track_count := r.track_count
    next_execution_assigned_user := r.next_execution_assigned_user
    last_done_by := r.last_done_by }

/-- The `ChoreLog` domain object (`data_models/chore_log.py`). -/
structure ChoreLog where
  id : Int
  chore_id : Int
  tracked_time : DateTime
  done_by : Int
  row_created_timestamp : DateTime
  undone : Bool
  undone_timestamp : Option DateTime
  skipped : Bool
  scheduled_execution_time : Option DateTime
  userfields : Option Json
  chore : Option Chore
  done_by_user : Option User
deriving Repr

/-- Model of `ChoreLog.from_response`: build the lightweight object, related objects
left unresolved. -/
def ChoreLog.fromResponse (r : ChoreLogResponse) : ChoreLog :=
  { id := r.id, chore_id := r.chore_id, tracked_time := r.tracked_time
    done_by := r.done_by_user_id
    row_created_timestamp := r.row_created_timestamp
    undone := r.undone, undone_timestamp := r.undone_timestamp
    skipped := r.skipped
    scheduled_execution_time := r.scheduled_execution_time
    userfields := r.userfields
    chore := none, done_by_user := none }

/-- Model of `ChoreLog.get_details`: hydrate by fetching the userfields, the owning
details of the chore, and the user list (through `get_user`), in that order, and
attach the results.  `Chore.from_details_response(None)` and `user.id` on a
`None` user raise at runtime. -/
def ChoreLog.getDetails (t : Transport) (l : ChoreLog) : CallResult ChoreLog :=
  andThen (getUserfields t "chores_log" l.id) (fun uf =>
    andThen (getChore t l.chore_id) (fun choreResp =>
      match choreResp with
      | none => (.error .runtimeError, [])
      | some cr =>
        andThen (getUser t l.done_by) (fun userOpt =>
          match userOpt with
          | none => (.error .runtimeError, [])
          | some u =>
            pureCall { l with
              userfields := uf
              chore := some (Chore.fromDetailsResponse cr)
              done_by_user := some
                { id := u.id, username := u.username
                  first_name := u.first_name, last_name := u.last_name
                  display_name := u.display_name } })))

/-- The `get_details` loop of `ChoreLogManager.list`: hydrate each item in
list order; an exception aborts the remainder. -/
def hydrateChoreLogs (t : Transport) : List ChoreLog → CallResult (List ChoreLog)
  | [] => pureCall []
  | l :: ls =>
    andThen (ChoreLog.getDetails t l) (fun l2 =>
      andThen (hydrateChoreLogs t ls) (fun ls2 => pureCall (l2 :: ls2)))

/-- Model of `ChoreLogManager.list`. -/
def choreLogManagerList (t : Transport) (fetchDetails : Bool)
    (qf : List String) : CallResult (List ChoreLog) :=
  andThen (getChoresLog t qf) (fun raws =>
    let logs := raws.map ChoreLog.fromResponse
    if fetchDetails then hydrateChoreLogs t logs else pureCall logs)

/-- The `Battery` domain object.
Modelled from the spec: `data_models/battery.py` is not among the sources at
hand; per the spec a battery carries identity, name, descriptive metadata, a
custom-field bag and a derived current state obtainable only through a
details fetch. -/
structure Battery where
  id : Int
  last_tracked_time : Option DateTime
  next_estimated_charge_time : Option DateTime
  name : Option String
  description : Option String
  used_in : Option String
  charge_interval_days : Option Int
  created_timestamp : Option DateTime
  userfields : Option Json
  charge_cycles_count : Option Int
  last_charged : Option DateTime
deriving Repr

/-- Modelled from the spec: `Battery.from_current_response` builds the
lightweight object from a battery summary, details left unset. -/
def Battery.fromCurrentResponse (r : CurrentBatteryResponse) : Battery :=
  { id := r.id, last_tracked_time := r.last_tracked_time
    next_estimated_charge_time := r.next_estimated_charge_time
    name := none, description := none, used_in := none
    charge_interval_days := none, created_timestamp := none
    userfields := none, charge_cycles_count := none, last_charged := none }

/-- Modelled from the spec: `Battery.get_details` fetches the
battery details payload and attaches it. -/
def Battery.getDetails (t : Transport) (b : Battery) : CallResult Battery :=
  andThen (getBattery t b.id) (fun resp =>
    match resp with
    | none => (.error .runtimeError, [])
    | some d =>
      pureCall { b with
        name := some d.battery.name
        description := d.battery.description
        used_in := d.battery.used_in
        charge_interval_days := some d.battery.charge_interval_days
        created_timestamp := some d.battery.created_timestamp
        userfields := d.battery.userfields
        charge_cycles_count := some d.charge_cycles_count
        last_charged := d.last_charged
        last_tracked_time := d.last_tracked_time
        next_estimated_charge_time := d.next_estimated_charge_time })

/-- The `get_details` loop of `BatteryManager.list`. -/
def hydrateBatteries (t : Transport) : List Battery → CallResult (List Battery)
  | [] => pureCall []
  | b :: bs =>
    andThen (Battery.getDetails t b) (fun b2 =>
      andThen (hydrateBatteries t bs) (fun bs2 => pureCall (b2 :: bs2)))

/-- Model of `BatteryManager.list`. -/
def batteryManagerList (t : Transport) (qf : List String)
    (fetchDetails : Bool) : CallResult (List Battery) :=
  andThen (getBatteries t qf) (fun raws =>
    let batteries := raws.map Battery.fromCurrentResponse
    if fetchDetails then hydrateBatteries t batteries else pureCall batteries)

/-- The `Equipment` domain object (`pygrocy2/data_models/equipment.py`):
every field starts unset (`_init_empty`). -/
structure Equipment where
  id : Option Int
  name : Option String
  description : Option String
  instruction_manual_file_name : Option String
  created_timestamp : Option DateTime
  userfields : Option Json
deriving Repr

/-- Model of `Equipment._init_from_EquipmentData`. -/
def Equipment.initFromEquipmentData (r : EquipmentData) : Equipment :=
  { id := some r.id, name := some r.name, description := r.description
    instruction_manual_file_name := r.instruction_manual_file_name
    created_timestamp := some r.created_timestamp
    userfields := r.userfields }

/-- Model of `Equipment._init_from_EquipmentDetailsResponse`: every field, including
the stored id, is overwritten from the payload. -/
def Equipment.initFromDetailsResponse (r : EquipmentDetailsResponse) : Equipment :=
  Equipment.initFromEquipmentData r.equipment

/-- Model of `Equipment.get_details`: fetch the details for the *stored* id and
re-initialize the whole object from the payload (a missing payload raises
at runtime). -/
def Equipment.getDetails (t : Transport) (e : Equipment) : CallResult Equipment :=
  andThen (getEquipment t e.id) (fun resp =>
    match resp with
    | none => (.error .runtimeError, [])
    | some d => pureCall (Equipment.initFromDetailsResponse d))

/-! ## Concrete transports and payloads used by the theorems -/

/-- A transport answering every request with status 500 and an empty body. -/
def transport500 : Transport := fun _ => ⟨500, none⟩

/-- A transport answering every request with status 200 and an empty body. -/
def transport200 : Transport := fun _ => ⟨200, none⟩

/-- The id-filtered GET request issued by `get_meal_plan_section`. -/
def mealPlanSectionReq (sid : Int) : Req :=
  Req.get ("objects/meal_plan_sections?query%5B%5D=id%3D" ++ toString sid) []

/-- A well-formed meal plan section payload. -/
def sectionJson : Json :=
  .obj [("id", .int 7), ("name", .str "Lunch"),
        ("row_created_timestamp", .str "2024-01-01 00:00:00")]

/-- A transport whose section query returns exactly one section. -/
def transportOneSection : Transport := fun _ => ⟨200, some (.arr [sectionJson])⟩

/-- A transport whose section query returns two sections. -/
def transportTwoSections : Transport :=
  fun _ => ⟨200, some (.arr [sectionJson, sectionJson])⟩

/-- A minimal user payload. -/
def userJson (i : Int) (uname : String) : Json :=
  .obj [("id", .int i), ("username", .str uname)]

/-- A transport whose user list contains two users, ids 1 and 4 in that
order. -/
def transportTwoUsers : Transport :=
  fun _ => ⟨200, some (.arr [userJson 1 "alice", userJson 4 "bob"])⟩

/-- A transport whose user list is empty. -/
def transportNoUsers : Transport := fun _ => ⟨200, some (.arr [])⟩

/-- A chore payload whose optional-string `description` field is the empty
string. -/
def choreEmptyDescriptionJson : Json :=
  .obj [("id", .int 1), ("name", .str "dishes"), ("description", .str ""),
        ("period_type", .str "manually"), ("track_date_only", .bool false),
        ("rollover", .bool false)]

/-- A chore payload carrying both an empty-string
`next_execution_assigned_to_user_id` and a nonempty `description`. -/
def choreSweepFields : List (String × Json) :=
  [("id", .int 3), ("name", .str "sweep"),
   ("description", .str "weekly sweep"), ("period_type", .str "manually"),
   ("track_date_only", .bool false), ("rollover", .bool false),
   ("next_execution_assigned_to_user_id", .str "")]

/-- The decoded form of `choreSweepFields`. -/
def choreSweepDecoded : ChoreData :=
  { id := 3, name := "sweep", description := some "weekly sweep"
    period_type := "manually", period_config := none, period_days := some 0
    track_date_only := false, rollover := false, assignment_type := none
    assignment_config := none, next_execution_assigned_to_user_id := none
    userfields := none }

/-- A chore payload whose `period_type` and `assignment_type` are not
members of the documented enumerations. -/
def choreBogusEnumsFields : List (String × Json) :=
  [("id", .int 2), ("name", .str "mop"),
   ("period_type", .str "every-blue-moon"),
   ("assignment_type", .str "bogus-assignment"),
   ("track_date_only", .bool false), ("rollover", .bool true)]

/-- The decoded form of `choreBogusEnumsFields`: the unrecognized strings
are passed through. -/
def choreBogusDecoded : ChoreData :=
  { id := 2, name := "mop", description := none
    period_type := "every-blue-moon", period_config := none
    period_days := some 0, track_date_only := false, rollover := true
    assignment_type := some "bogus-assignment", assignment_config := none
    next_execution_assigned_to_user_id := none, userfields := none }

/-- A well-formed stock log payload whose transaction type is `purchase`. -/
def stockLogOkFields : List (String × Json) :=
  [("id", .int 1), ("product_id", .int 5), ("amount", .int 10),
   ("best_before_date", .str "2024-01-01"), ("purchased_date", .str "2024-01-01"),
   ("stock_id", .str "s1"), ("transaction_id", .str "t1"),
   ("transaction_type", .str "purchase")]

/-- The decoded form of `stockLogOkFields`. -/
def stockLogOkDecoded : StockLogResponse :=
  { id := 1, product_id := 5, amount := 10
    best_before_date := ⟨"2024-01-01"⟩, purchased_date := ⟨"2024-01-01"⟩
    used_date := none, spoiled := false, stock_id := "s1"
    transaction_id := "t1", transaction_type := .purchase }

/-- The POST request issued by `inventory_product` with all optional
arguments absent: the body is exactly the new amount. -/
def inventoryReq (pid n : Int) : Req :=
  Req.post ("stock/products/" ++ toString pid ++ "/inventory")
    (some (.obj [("new_amount", .int n)]))

/-- Like `stockLogOkFields`, but with an unrecognized transaction type. -/
def stockLogBadFields : List (String × Json) :=
  [("id", .int 2), ("product_id", .int 5), ("amount", .int 10),
   ("best_before_date", .str "2024-01-01"), ("purchased_date", .str "2024-01-01"),
   ("stock_id", .str "s2"), ("transaction_id", .str "t1"),
   ("transaction_type", .str "bogus")]

/-- A transport whose inventory response is a two-element list: a valid
entry followed by a malformed one. -/
def transportInventoryBad : Transport :=
  fun _ => ⟨200, some (.arr [.obj stockLogOkFields, .obj stockLogBadFields])⟩

/-- A transport whose inventory response is a one-element valid list. -/
def transportInventoryOk : Transport :=
  fun _ => ⟨200, some (.arr [.obj stockLogOkFields])⟩

/-- The GET request issued by `get_userfields`. -/
def userfieldsReq (entity : String) (objectId : Int) : Req :=
  Req.get ("userfields/" ++ entity ++ "/" ++ toString objectId) []

/-- The GET request issued by `get_chore`. -/
def choreDetailsReq (choreId : Int) : Req :=
  Req.get ("chores/" ++ toString choreId) []

/-- The GET request issued by `get_user` and `get_users`. -/
def usersReq : Req := Req.get "users" []

/-- The GET request issued by `get_chores_log`. -/
def choresLogReq (qf : List String) : Req := Req.get "objects/chores_log" qf

/-- The GET request issued by `get_equipment`. -/
def equipmentReq (i : Option Int) : Req :=
  Req.get ("objects/equipment/" ++ pyStrOptInt i) []

/-- A minimal equipment payload. -/
def equipJson (i : Int) (nm : String) : Json :=
  .obj [("id", .int i), ("name", .str nm),
        ("row_created_timestamp", .str "2024-01-01 00:00:00")]

/-- A transport whose equipment-details payloads do *not* echo the
requested id: asking for id 1 returns an equipment with id 2. -/
def transportShiftingEquipment : Transport := fun r =>
  match r with
  | .get p _ =>
    if p = "objects/equipment/1" then ⟨200, some (equipJson 2 "fridge")⟩
    else if p = "objects/equipment/2" then ⟨200, some (equipJson 2 "freezer")⟩
    else ⟨404, none⟩
  | _ => ⟨404, none⟩

/-- An unhydrated equipment object holding only the id. -/
def equipmentStart : Equipment :=
  { id := some 1, name := none, description := none
    instruction_manual_file_name := none, created_timestamp := none
    userfields := none }

/-- Model of `equipmentStart` after one hydrate over `transportShiftingEquipment`. -/
def equipmentAfterOne : Equipment :=
  { id := some 2, name := some "fridge", description := none
    instruction_manual_file_name := none
    created_timestamp := some ⟨"2024-01-01 00:00:00"⟩, userfields := none }

/-- Model of `equipmentStart` after two hydrates over `transportShiftingEquipment`. -/
def equipmentAfterTwo : Equipment :=
  { id := some 2, name := some "freezer", description := none
    instruction_manual_file_name := none
    created_timestamp := some ⟨"2024-01-01 00:00:00"⟩, userfields := none }

/-- A chore log summary payload, id 3. -/
def choreLogJson3 : Json :=
  .obj [("id", .int 3), ("chore_id", .int 6),
        ("tracked_time", .str "2024-01-02 10:00:00"),
        ("done_by_user_id", .int 4),
        ("row_created_timestamp", .str "2024-01-02 10:00:00"),
        ("undone", .bool false), ("skipped", .bool false)]

/-- A chore details payload, id 6. -/
def choreDetailsJson6 : Json :=
  .obj [("chore", .obj [("id", .int 6), ("name", .str "dishes"),
         ("period_type", .str "manually"), ("track_date_only", .bool false),
         ("rollover", .bool false)])]

/-- A transport serving one chore log (id 3, chore 6, done by user 4) and
all the payloads its hydration needs. -/
def transportChoreLog : Transport := fun r =>
  match r with
  | .get p _ =>
    if p = "objects/chores_log" then ⟨200, some (.arr [choreLogJson3])⟩
    else if p = "userfields/chores_log/3" then
      ⟨200, some (.obj [("note", .str "x")])⟩
    else if p = "chores/6" then ⟨200, some choreDetailsJson6⟩
    else if p = "users" then ⟨200, some (.arr [userJson 4 "bob"])⟩
    else ⟨404, none⟩
  | _ => ⟨404, none⟩

/-- The chore log object decoded from `choreLogJson3`, before hydration. -/
def choreLog3Base : ChoreLog :=
  { id := 3, chore_id := 6, tracked_time := ⟨"2024-01-02 10:00:00"⟩
    done_by := 4, row_created_timestamp := ⟨"2024-01-02 10:00:00"⟩
    undone := false, undone_timestamp := none, skipped := false
    scheduled_execution_time := none, userfields := none
    chore := none, done_by_user := none }

/-- Model of `choreLog3Base` after hydration over `transportChoreLog`. -/
def choreLog3Hydrated : ChoreLog :=
  { choreLog3Base with
      userfields := some (.obj [("note", .str "x")])
      chore := some {
        id := 6
        name := "dishes"
        period_type := "manually"
        assignment_type := none
        last_tracked := none
        next_estimated_execution_time := none
        track_count := 0
        next_execution_assigned_user := none
        last_done_by := none }
      done_by_user := some {
        id := 4
        username := "bob"
        first_name := none
        last_name := none
        display_name := none } }

/-- A transport whose equipment-details payload echoes the requested id. -/
def transportEquipmentEcho : Transport := fun r =>
  match r with
  | .get p _ =>
    if p = "objects/equipment/1" then ⟨200, some (equipJson 1 "fridge")⟩
    else ⟨404, none⟩
  | _ => ⟨404, none⟩

/-- Model of `equipmentStart` hydrated over `transportEquipmentEcho`. -/
def equipmentEchoHydrated : Equipment :=
  { id := some 1, name := some "fridge", description := none
    instruction_manual_file_name := none
    created_timestamp := some ⟨"2024-01-01 00:00:00"⟩, userfields := none }

/-- The three hydrate requests of one chore log item, in order. -/
def choreLogHydrateReqs (l : ChoreLog) : List Req :=
  [userfieldsReq "chores_log" l.id, choreDetailsReq l.chore_id, usersReq]

/-! ## Claim and supporting theorems -/

theorem andThen_error (e : ApiError) (r : List Req) (f : α → CallResult β) :
    andThen (.error e, r) f = (.error e, r) := rfl

theorem andThen_ok (v : α) (r : List Req) (f : α → CallResult β) :
    andThen (.ok v, r) f = ((f v).1, r ++ (f v).2) := rfl

theorem except_bind_ok {α β : Type} {x : Except ApiError α}
    {f : α → Except ApiError β} {b : β} (h : x >>= f = .ok b) :
    ∃ a, x = .ok a ∧ f a = .ok b := by
  cases x with
  | error e => exact absurd h (by simp [Bind.bind, Except.bind])
  | ok a => exact ⟨a, rfl, h⟩

theorem doGetRequest_eq (t : Transport) (p : String) (qf : List String) :
    doGetRequest t p qf =
      (if 400 ≤ (t (Req.get p qf)).status then
        .error (.requestFailed (t (Req.get p qf)).status (t (Req.get p qf)).content)
      else .ok (t (Req.get p qf)).content, [Req.get p qf]) := by
  simp only [doGetRequest]
  split <;> rfl

theorem doPostRequest_eq (t : Transport) (p : String) (d : Option Json) :
    doPostRequest t p d =
      (if 400 ≤ (t (Req.post p d)).status then
        .error (.requestFailed (t (Req.post p d)).status (t (Req.post p d)).content)
      else .ok (t (Req.post p d)).content, [Req.post p d]) := by
  simp only [doPostRequest]
  split <;> rfl

theorem doPutRequest_eq (t : Transport) (p : String) (d : PutBody) :
    doPutRequest t p d =
      (if 400 ≤ (t (Req.put p d)).status then
        .error (.requestFailed (t (Req.put p d)).status (t (Req.put p d)).content)
      else .ok (t (Req.put p d)).content, [Req.put p d]) := by
  simp only [doPutRequest]
  split <;> rfl

theorem doDeleteRequest_eq (t : Transport) (p : String) :
    doDeleteRequest t p =
      (if 400 ≤ (t (Req.delete p)).status then
        .error (.requestFailed (t (Req.delete p)).status (t (Req.delete p)).content)
      else .ok (t (Req.delete p)).content, [Req.delete p]) := by
  simp only [doDeleteRequest]
  split <;> rfl

/-- Claim C5:  For each of the four transport verbs and every HTTP response:
exactly one request is issued (no retry); a status ≥ 400 raises the
request-failed error carrying the status code and raw body of the response; a
status < 400 raises no such error (the parsed body is returned). -/
theorem transport_verbs_error_behavior (t : Transport) (p : String)
    (qf : List String) (d : Option Json) (pb : PutBody) :
    ((doGetRequest t p qf).2 = [Req.get p qf] ∧
      (400 ≤ (t (Req.get p qf)).status →
        (doGetRequest t p qf).1 = .error
          (.requestFailed (t (Req.get p qf)).status (t (Req.get p qf)).content)) ∧
      ((t (Req.get p qf)).status < 400 →
        (doGetRequest t p qf).1 = .ok (t (Req.get p qf)).content)) ∧
    ((doPostRequest t p d).2 = [Req.post p d] ∧
      (400 ≤ (t (Req.post p d)).status →
        (doPostRequest t p d).1 = .error
          (.requestFailed (t (Req.post p d)).status (t (Req.post p d)).content)) ∧
      ((t (Req.post p d)).status < 400 →
        (doPostRequest t p d).1 = .ok (t (Req.post p d)).content)) ∧
    ((doPutRequest t p pb).2 = [Req.put p pb] ∧
      (400 ≤ (t (Req.put p pb)).status →
        (doPutRequest t p pb).1 = .error
          (.requestFailed (t (Req.put p pb)).status (t (Req.put p pb)).content)) ∧
      ((t (Req.put p pb)).status < 400 →
        (doPutRequest t p pb).1 = .ok (t (Req.put p pb)).content)) ∧
    ((doDeleteRequest t p).2 = [Req.delete p] ∧
      (400 ≤ (t (Req.delete p)).status →
        (doDeleteRequest t p).1 = .error
          (.requestFailed (t (Req.delete p)).status (t (Req.delete p)).content)) ∧
      ((t (Req.delete p)).status < 400 →
        (doDeleteRequest t p).1 = .ok (t (Req.delete p)).content)) := by
  refine ⟨⟨?_, ?_, ?_⟩, ⟨?_, ?_, ?_⟩, ⟨?_, ?_, ?_⟩, ⟨?_, ?_, ?_⟩⟩ <;>
    first
      | (rw [doGetRequest_eq])
      | (rw [doPostRequest_eq])
      | (rw [doPutRequest_eq])
      | (rw [doDeleteRequest_eq])
  all_goals first
    | rfl
    | (intro h; simp [h])

/-- Witness for `transport_verbs_error_behavior` at concrete transports. -/
theorem transport_verbs_error_behavior_witness :
    (doGetRequest transport500 "stock" []).1 = .error (.requestFailed 500 none) ∧
    (doGetRequest transport200 "stock" []).1 = .ok none := by
  refine ⟨?_, ?_⟩
  · exact (transport_verbs_error_behavior transport500 "stock" [] none
      (PutBody.json .null)).1.2.1 (by decide)
  · exact (transport_verbs_error_behavior transport200 "stock" [] none
      (PutBody.json .null)).1.2.2 (by decide)

/-- Claim C6:  When the transport answers the list request with status 500
(e.g. for an invalid filter expression), `ChoreLogManager.list` and
`BatteryManager.list` surface the failure unmodified as the request-failed
error with status code 500 — no manager swallows or downgrades it.  This
holds for both values of `get_details`.  (`Battery` construction is modelled
from the spec, but the error propagates before any construction runs.) -/
theorem manager_list_propagates_500 (t : Transport) (qf : List String)
    (fd : Bool) :
    ((t (Req.get "objects/chores_log" qf)).status = 500 →
      choreLogManagerList t fd qf =
        (.error (.requestFailed 500 (t (Req.get "objects/chores_log" qf)).content),
          [Req.get "objects/chores_log" qf])) ∧
    ((t (Req.get "batteries" qf)).status = 500 →
      batteryManagerList t qf fd =
        (.error (.requestFailed 500 (t (Req.get "batteries" qf)).content),
          [Req.get "batteries" qf])) := by
  constructor
  · intro h
    simp [choreLogManagerList, getChoresLog, doGetRequest_eq, h, andThen]
  · intro h
    simp [batteryManagerList, getBatteries, doGetRequest_eq, h, andThen]

/-- Witness for `manager_list_propagates_500` on the all-500 transport. -/
theorem manager_list_propagates_500_witness :
    choreLogManagerList transport500 true ["undone=abc"] =
      (.error (.requestFailed 500 none), [Req.get "objects/chores_log" ["undone=abc"]]) ∧
    batteryManagerList transport500 ["xyz"] false =
      (.error (.requestFailed 500 none), [Req.get "batteries" ["xyz"]]) :=
  ⟨(manager_list_propagates_500 transport500 ["undone=abc"] true).1 rfl,
   (manager_list_propagates_500 transport500 ["xyz"] false).2 rfl⟩

/-- Claim C7:  Decoding a system-config payload collects exactly the wire
fields whose names are prefixed `FEATURE_FLAG_` into the `feature_flags`
mapping, independent of how many such fields exist; in particular a payload
with `FEATURE_FLAG_A=true, FEATURE_FLAG_B=false, OTHER=1` decodes to the
mapping containing exactly those two flags. -/
theorem system_config_feature_flags :
    (∀ (fs : List (String × Json)) (cfg : SystemConfigDto),
      decodeSystemConfigDto (.obj fs) = .ok cfg →
      cfg.feature_flags = fs.filter (fun p => strStartsWith p.1 "FEATURE_FLAG_")) ∧
    ∀ (cfg : SystemConfigDto),
      decodeSystemConfigDto
        (.obj ([("USER_USERNAME", .str "admin"), ("BASE_PATH", .str "/"),
                ("BASE_URL", .str "http://h"), ("MODE", .str "production"),
                ("DEFAULT_LOCALE", .str "en"), ("LOCALE", .str "en"),
                ("CURRENCY", .str "EUR"),
                ("FEATURE_FLAG_A", .bool true), ("FEATURE_FLAG_B", .bool false),
                ("OTHER", .int 1)])) = .ok cfg →
      cfg.feature_flags =
        [("FEATURE_FLAG_A", .bool true), ("FEATURE_FLAG_B", .bool false)] := by
  constructor
  · intro fs cfg h
    simp only [decodeSystemConfigDto] at h
    obtain ⟨u, hu, h⟩ := except_bind_ok h
    obtain ⟨bp, hbp, h⟩ := except_bind_ok h
    obtain ⟨bu, hbu, h⟩ := except_bind_ok h
    obtain ⟨m, hm, h⟩ := except_bind_ok h
    obtain ⟨dl, hdl, h⟩ := except_bind_ok h
    obtain ⟨lo, hlo, h⟩ := except_bind_ok h
    obtain ⟨cu, hcu, h⟩ := except_bind_ok h
    cases h
    rfl
  · intro cfg h
    simp only [decodeSystemConfigDto] at h
    obtain ⟨u, hu, h⟩ := except_bind_ok h
    obtain ⟨bp, hbp, h⟩ := except_bind_ok h
    obtain ⟨bu, hbu, h⟩ := except_bind_ok h
    obtain ⟨m, hm, h⟩ := except_bind_ok h
    obtain ⟨dl, hdl, h⟩ := except_bind_ok h
    obtain ⟨lo, hlo, h⟩ := except_bind_ok h
    obtain ⟨cu, hcu, h⟩ := except_bind_ok h
    cases h
    rfl

/-- Witness payload decode for `system_config_feature_flags`. -/
theorem system_config_feature_flags_witness :
    ∃ cfg : SystemConfigDto,
      decodeSystemConfigDto
        (.obj ([("USER_USERNAME", .str "admin"), ("BASE_PATH", .str "/"),
                ("BASE_URL", .str "http://h"), ("MODE", .str "production"),
                ("DEFAULT_LOCALE", .str "en"), ("LOCALE", .str "en"),
                ("CURRENCY", .str "EUR"),
                ("FEATURE_FLAG_A", .bool true), ("FEATURE_FLAG_B", .bool false),
                ("OTHER", .int 1)])) = .ok cfg ∧
      cfg.feature_flags =
        [("FEATURE_FLAG_A", .bool true), ("FEATURE_FLAG_B", .bool false)] :=
  ⟨{ username := "admin", base_path := "/", base_url := "http://h"
     mode := "production", default_locale := "en", locale := "en"
     currency := "EUR"
     feature_flags := [("FEATURE_FLAG_A", .bool true), ("FEATURE_FLAG_B", .bool false)] },
   rfl,
   system_config_feature_flags.2 _ rfl⟩

/-- Claim C10:  Single-section lookup returns a section exactly when the
id-filtered query returns a one-element list; an empty body, an empty list
and a list of two or more elements all return `None` without raising. -/
theorem meal_plan_section_single_match (t : Transport) (sid : Int)
    (hok : (t (mealPlanSectionReq sid)).status < 400) :
    ((t (mealPlanSectionReq sid)).content = none →
      getMealPlanSection t sid = (.ok none, [mealPlanSectionReq sid])) ∧
    (∀ xs, (t (mealPlanSectionReq sid)).content = some (.arr xs) →
      xs.length ≠ 1 →
      getMealPlanSection t sid = (.ok none, [mealPlanSectionReq sid])) ∧
    (∀ x sec, (t (mealPlanSectionReq sid)).content = some (.arr [x]) →
      decodeMealPlanSectionResponse x = .ok sec →
      getMealPlanSection t sid = (.ok (some sec), [mealPlanSectionReq sid])) := by
  have hnot : ¬ 400 ≤ (t (mealPlanSectionReq sid)).status := by omega
  refine ⟨?_, ?_, ?_⟩
  · intro hc
    simp only [mealPlanSectionReq] at hc hnot ⊢
    simp [getMealPlanSection, doGetRequest_eq, hnot, hc, andThen, pureCall]
  · intro xs hc hlen
    simp only [mealPlanSectionReq] at hc hnot ⊢
    cases xs with
    | nil =>
      simp [getMealPlanSection, doGetRequest_eq, hnot, hc, andThen, pureCall]
    | cons x rest =>
      cases rest with
      | nil => exact absurd rfl hlen
      | cons y rest2 =>
        simp [getMealPlanSection, doGetRequest_eq, hnot, hc, andThen, pureCall]
  · intro x sec hc hdec
    simp only [mealPlanSectionReq] at hc hnot ⊢
    simp [getMealPlanSection, doGetRequest_eq, hnot, hc, andThen, liftDecode, hdec,
      Except.map]

/-- Witness for `meal_plan_section_single_match`. -/
theorem meal_plan_section_single_match_witness :
    getMealPlanSection transportOneSection 7 =
      (.ok (some { id := some 7, name := some "Lunch", sort_number := none
                   row_created_timestamp := ⟨"2024-01-01 00:00:00"⟩ }),
        [mealPlanSectionReq 7]) ∧
    getMealPlanSection transportTwoSections 7 =
      (.ok none, [mealPlanSectionReq 7]) :=
  ⟨(meal_plan_section_single_match transportOneSection 7 (by decide)).2.2
      sectionJson _ rfl rfl,
   (meal_plan_section_single_match transportTwoSections 7 (by decide)).2.1
      [sectionJson, sectionJson] rfl (by decide)⟩

/-- Claim C4:  Evaluation of `get_user` at the failing input: asked for user
id 4 while the user list on the server is `[id 1, id 4]`, the code fetches the
full list without the id filter it builds and returns the *first* user —
id 1, not 4.  (When the server returns no users it does return `None`
without raising, as claimed.) -/
theorem get_user_ignores_requested_id :
    getUser transportTwoUsers 4 =
      (.ok (some { id := 1, username := "alice", first_name := none
                   last_name := none, display_name := none }),
        [Req.get "users" []]) ∧
    getUser transportNoUsers 4 = (.ok none, [Req.get "users" []]) :=
  ⟨rfl, rfl⟩

theorem reqField_ok {α : Type} {fs : List (String × Json)} {name : String}
    {dec : Json → Option α} {v : α} (h : reqField fs name dec = .ok v) :
    ∃ j, getField fs name = some j ∧ dec j = some v := by
  cases hg : getField fs name with
  | none => simp [reqField, hg] at h
  | some j =>
    cases hd : dec j with
    | none => simp [reqField, hg, hd] at h
    | some w =>
      simp [reqField, hg, hd] at h
      rw [h] at hd
      exact ⟨j, rfl, hd⟩

/-- Claim C2 (counterexample):  Decoding a chore payload with
`description = ""` yields `description = some ""` — the empty string is
kept, not coerced to the absent value, because the empty-string
pre-validator is not installed on any string-typed optional field. -/
theorem empty_string_kept_on_description :
    decodeChoreData choreEmptyDescriptionJson =
      .ok { id := 1, name := "dishes", description := some ""
            period_type := "manually", period_config := none
            period_days := some 0, track_date_only := false, rollover := false
            assignment_type := none, assignment_config := none
            next_execution_assigned_to_user_id := none, userfields := none } := rfl

/-- Claim C2 (amended):  The empty-string-to-absent coercion applies exactly to
the fields carrying the `_field_not_empty_validator` — non-string-typed
optional fields such as the chore field `next_execution_assigned_to_user_id` —
while optional *string* fields such as `description` keep a present wire
value verbatim, the empty string included. -/
theorem empty_string_normalization_scope (fs : List (String × Json))
    (cd : ChoreData) (h : decodeChoreData (.obj fs) = .ok cd) :
    (getField fs "next_execution_assigned_to_user_id" = some (.str "") →
      cd.next_execution_assigned_to_user_id = none) ∧
    (∀ s, getField fs "description" = some (.str s) → cd.description = some s) := by
  simp only [decodeChoreData] at h
  obtain ⟨v1, h1, h⟩ := except_bind_ok h
  obtain ⟨v2, h2, h⟩ := except_bind_ok h
  obtain ⟨v3, h3, h⟩ := except_bind_ok h
  obtain ⟨v4, h4, h⟩ := except_bind_ok h
  obtain ⟨v5, h5, h⟩ := except_bind_ok h
  obtain ⟨v6, h6, h⟩ := except_bind_ok h
  obtain ⟨v7, h7, h⟩ := except_bind_ok h
  obtain ⟨v8, h8, h⟩ := except_bind_ok h
  obtain ⟨v9, h9, h⟩ := except_bind_ok h
  obtain ⟨v10, h10, h⟩ := except_bind_ok h
  obtain ⟨v11, h11, h⟩ := except_bind_ok h
  obtain ⟨v12, h12, h⟩ := except_bind_ok h
  cases h
  constructor
  · intro hg
    simp [optFieldEmptyToNone, hg] at h11
    simp [← h11]
  · intro s hg
    simp [optField, hg, decodeStrJson] at h3
    simp [← h3]

/-- Witness for `empty_string_normalization_scope`. -/
theorem empty_string_normalization_scope_witness :
    decodeChoreData (.obj choreSweepFields) = .ok choreSweepDecoded ∧
    choreSweepDecoded.next_execution_assigned_to_user_id = none ∧
    choreSweepDecoded.description = some "weekly sweep" :=
  ⟨rfl,
   (empty_string_normalization_scope choreSweepFields choreSweepDecoded rfl).1 rfl,
   (empty_string_normalization_scope choreSweepFields choreSweepDecoded rfl).2
     "weekly sweep" rfl⟩

/-- Claim C3 (counterexample):  Decoding a chore payload whose `period_type`
and `assignment_type` are unrecognized strings succeeds and passes the raw
strings through into the decoded object — no decode failure is raised. -/
theorem enum_passthrough_on_chore :
    decodeChoreData (.obj choreBogusEnumsFields) = .ok choreBogusDecoded := rfl

/-- Claim C3 (amended):  Of the three enumerated fields, only the stock log field
`transaction_type` is validated against its enumeration — a decoded
`StockLogResponse` always comes from a recognized wire value — while the
chore fields `period_type` and `assignment_type` are declared as plain strings
and pass any wire value through unchanged. -/
theorem enum_validation_scope :
    (∀ (fs : List (String × Json)) (r : StockLogResponse),
      decodeStockLogResponse (.obj fs) = .ok r →
      ∃ s, getField fs "transaction_type" = some (.str s) ∧
        parseTransactionType s = some r.transaction_type) ∧
    (∀ (fs : List (String × Json)) (cd : ChoreData) (s : String),
      decodeChoreData (.obj fs) = .ok cd →
      getField fs "period_type" = some (.str s) → cd.period_type = s) ∧
    (∀ (fs : List (String × Json)) (cd : ChoreData) (s : String),
      decodeChoreData (.obj fs) = .ok cd →
      getField fs "assignment_type" = some (.str s) →
      cd.assignment_type = some s) := by
  refine ⟨?_, ?_, ?_⟩
  · intro fs r h
    simp only [decodeStockLogResponse] at h
    obtain ⟨w1, g1, h⟩ := except_bind_ok h
    obtain ⟨w2, g2, h⟩ := except_bind_ok h
    obtain ⟨w3, g3, h⟩ := except_bind_ok h
    obtain ⟨w4, g4, h⟩ := except_bind_ok h
    obtain ⟨w5, g5, h⟩ := except_bind_ok h
    obtain ⟨w6, g6, h⟩ := except_bind_ok h
    obtain ⟨w7, g7, h⟩ := except_bind_ok h
    obtain ⟨w8, g8, h⟩ := except_bind_ok h
    obtain ⟨w9, g9, h⟩ := except_bind_ok h
    obtain ⟨w10, g10, h⟩ := except_bind_ok h
    cases h
    obtain ⟨j, hj, hdec⟩ := reqField_ok g10
    cases j with
    | str s => exact ⟨s, hj, by simpa using hdec⟩
    | int n => exact absurd hdec (by simp)
    | bool b => exact absurd hdec (by simp)
    | null => exact absurd hdec (by simp)
    | arr xs => exact absurd hdec (by simp)
    | obj gs => exact absurd hdec (by simp)
  · intro fs cd s h hg
    simp only [decodeChoreData] at h
    obtain ⟨v1, h1, h⟩ := except_bind_ok h
    obtain ⟨v2, h2, h⟩ := except_bind_ok h
    obtain ⟨v3, h3, h⟩ := except_bind_ok h
    obtain ⟨v4, h4, h⟩ := except_bind_ok h
    obtain ⟨v5, h5, h⟩ := except_bind_ok h
    obtain ⟨v6, h6, h⟩ := except_bind_ok h
    obtain ⟨v7, h7, h⟩ := except_bind_ok h
    obtain ⟨v8, h8, h⟩ := except_bind_ok h
    obtain ⟨v9, h9, h⟩ := except_bind_ok h
    obtain ⟨v10, h10, h⟩ := except_bind_ok h
    obtain ⟨v11, h11, h⟩ := except_bind_ok h
    obtain ⟨v12, h12, h⟩ := except_bind_ok h
    cases h
    simp [reqField, hg, decodeStrJson] at h4
    simp [← h4]
  · intro fs cd s h hg
    simp only [decodeChoreData] at h
    obtain ⟨v1, h1, h⟩ := except_bind_ok h
    obtain ⟨v2, h2, h⟩ := except_bind_ok h
    obtain ⟨v3, h3, h⟩ := except_bind_ok h
    obtain ⟨v4, h4, h⟩ := except_bind_ok h
    obtain ⟨v5, h5, h⟩ := except_bind_ok h
    obtain ⟨v6, h6, h⟩ := except_bind_ok h
    obtain ⟨v7, h7, h⟩ := except_bind_ok h
    obtain ⟨v8, h8, h⟩ := except_bind_ok h
    obtain ⟨v9, h9, h⟩ := except_bind_ok h
    obtain ⟨v10, h10, h⟩ := except_bind_ok h
    obtain ⟨v11, h11, h⟩ := except_bind_ok h
    obtain ⟨v12, h12, h⟩ := except_bind_ok h
    cases h
    simp [optField, hg, decodeStrJson] at h9
    simp [← h9]

/-- Witness for `enum_validation_scope`. -/
theorem enum_validation_scope_witness :
    (∃ s, getField stockLogOkFields "transaction_type" = some (.str s) ∧
      parseTransactionType s = some stockLogOkDecoded.transaction_type) ∧
    choreBogusDecoded.period_type = "every-blue-moon" ∧
    choreBogusDecoded.assignment_type = some "bogus-assignment" :=
  ⟨enum_validation_scope.1 stockLogOkFields stockLogOkDecoded rfl,
   enum_validation_scope.2.1 choreBogusEnumsFields choreBogusDecoded
     "every-blue-moon" rfl rfl,
   enum_validation_scope.2.2 choreBogusEnumsFields choreBogusDecoded
     "bogus-assignment" rfl rfl⟩

/-- Claim C9 (counterexample):  With a response list whose first element is
valid and whose second element has an unrecognized transaction type, the
call fails with a decode error instead of returning the object built from
the first element — elements beyond the first are decoded, not ignored. -/
theorem inventory_decodes_all_elements :
    inventoryProduct transportInventoryBad 5 10 none none none none =
      (.error (.invalidResponse "transaction_type"),
        [inventoryReq 5 10]) := rfl

theorem inventoryDecodeBody_log (c : Option Json) :
    (inventoryDecodeBody c).2 = [] := by
  rcases c with _ | j
  · rfl
  · cases j <;> simp [inventoryDecodeBody, pureCall, liftDecode] <;> split <;> rfl

/-- Claim C9 (amended):  `inventory(product_id, new_amount)` with all optional
arguments absent posts exactly `{"new_amount": n}` to
`stock/products/{id}/inventory` in a single request; on a list response it
decodes *every* element (so a malformed later element fails the call) and
returns the object built from the first decoded element; an empty body and
an empty list both return no object. -/
theorem inventory_request_and_first_element (t : Transport) (pid n : Int) :
    (inventoryProduct t pid n none none none none).2 = [inventoryReq pid n] ∧
    (∀ xs d ds, (t (inventoryReq pid n)).content = some (.arr xs) →
      decodeList decodeStockLogResponse xs = .ok (d :: ds) →
      (t (inventoryReq pid n)).status < 400 →
      (inventoryProduct t pid n none none none none).1 = .ok (some d)) ∧
    ((t (inventoryReq pid n)).status < 400 →
      (t (inventoryReq pid n)).content = none →
      (inventoryProduct t pid n none none none none).1 = .ok none) ∧
    ((t (inventoryReq pid n)).status < 400 →
      (t (inventoryReq pid n)).content = some (.arr []) →
      (inventoryProduct t pid n none none none none).1 = .ok none) := by
  refine ⟨?_, ?_, ?_, ?_⟩
  · simp only [inventoryProduct, inventoryReq, doPostRequest_eq]
    split
    · rfl
    · simp [andThen, inventoryDecodeBody_log]
  · intro xs d ds hc hm hs
    have hnot : ¬ 400 ≤ (t (inventoryReq pid n)).status := by omega
    have hne : xs.isEmpty = false := by
      cases xs with
      | nil => simp [decodeList] at hm
      | cons y ys => rfl
    simp only [inventoryReq] at hnot hc
    simp [inventoryProduct, doPostRequest_eq, hnot, hc, andThen,
      inventoryDecodeBody, hne, liftDecode, hm, Except.map]
  · intro hs hc
    have hnot : ¬ 400 ≤ (t (inventoryReq pid n)).status := by omega
    simp only [inventoryReq] at hnot hc
    simp [inventoryProduct, doPostRequest_eq, hnot, hc, andThen,
      inventoryDecodeBody, pureCall]
  · intro hs hc
    have hnot : ¬ 400 ≤ (t (inventoryReq pid n)).status := by omega
    simp only [inventoryReq] at hnot hc
    simp [inventoryProduct, doPostRequest_eq, hnot, hc, andThen,
      inventoryDecodeBody, pureCall]

/-- Witness for `inventory_request_and_first_element`. -/
theorem inventory_request_and_first_element_witness :
    (inventoryProduct transportInventoryOk 5 10 none none none none).2 =
      [inventoryReq 5 10] ∧
    (inventoryProduct transportInventoryOk 5 10 none none none none).1 =
      .ok (some stockLogOkDecoded) :=
  ⟨(inventory_request_and_first_element transportInventoryOk 5 10).1,
   (inventory_request_and_first_element transportInventoryOk 5 10).2.1
     [.obj stockLogOkFields] stockLogOkDecoded [] rfl rfl (by decide)⟩

theorem andThen_eq_ok {α β : Type} {x : CallResult α} {f : α → CallResult β}
    {b : β} {r : List Req} (h : andThen x f = (.ok b, r)) :
    ∃ a r1 r2, x = (.ok a, r1) ∧ f a = (.ok b, r2) ∧ r = r1 ++ r2 := by
  rcases x with ⟨res, r1⟩
  cases res with
  | error e => simp [andThen] at h
  | ok a =>
    rcases hf : f a with ⟨fres, r2⟩
    cases fres with
    | error e =>
      rw [show andThen (Except.ok a, r1) f = (.error e, r1 ++ r2) by
        simp [andThen, hf]] at h
      simp at h
    | ok b2 =>
      rw [show andThen (Except.ok a, r1) f = (.ok b2, r1 ++ r2) by
        simp [andThen, hf]] at h
      injection h with h1 h2
      injection h1 with h3
      exact ⟨a, r1, r2, rfl, by rw [hf, h3], h2.symm⟩

theorem doGetRequest_ok {t : Transport} {p : String} {qf : List String}
    {v : Option Json} {r : List Req} (h : doGetRequest t p qf = (.ok v, r)) :
    r = [Req.get p qf] ∧ v = (t (Req.get p qf)).content ∧
      ¬ 400 ≤ (t (Req.get p qf)).status := by
  rw [doGetRequest_eq] at h
  by_cases hs : 400 ≤ (t (Req.get p qf)).status
  · rw [if_pos hs] at h
    exact absurd h (by simp)
  · rw [if_neg hs] at h
    injection h with h1 h2
    injection h1 with h3
    exact ⟨h2.symm, h3.symm, hs⟩

theorem getUserfields_log (t : Transport) (e : String) (i : Int) :
    (getUserfields t e i).2 = [userfieldsReq e i] := by
  simp only [getUserfields, userfieldsReq, doGetRequest_eq]

theorem getChore_log (t : Transport) (cid : Int) :
    (getChore t cid).2 = [choreDetailsReq cid] := by
  simp only [getChore, choreDetailsReq, doGetRequest_eq]
  split
  · rfl
  · rcases (t (Req.get ("chores/" ++ toString cid) [])).content with _ | j
    · rfl
    · cases j <;> simp [andThen, pureCall, liftDecode, jsonTruthy] <;> split <;> rfl

theorem getUser_log (t : Transport) (uid : Int) :
    (getUser t uid).2 = [usersReq] := by
  simp only [getUser, usersReq, doGetRequest_eq]
  split
  · rfl
  · rcases (t (Req.get "users" [])).content with _ | j
    · rfl
    · cases j with
      | arr xs =>
        cases xs <;> simp [andThen, pureCall, liftDecode, jsonTruthy]
      | str s => simp [andThen, pureCall]; split <;> rfl
      | int m => simp [andThen, pureCall]; split <;> rfl
      | bool b => simp [andThen, pureCall]; split <;> rfl
      | null => simp [andThen, pureCall, jsonTruthy]
      | obj gs => simp [andThen, pureCall]; split <;> rfl

theorem getChoresLog_log (t : Transport) (qf : List String) :
    (getChoresLog t qf).2 = [choresLogReq qf] := by
  simp only [getChoresLog, choresLogReq, doGetRequest_eq]
  split <;> simp [andThen, liftDecode]

theorem getEquipment_log (t : Transport) (i : Option Int) :
    (getEquipment t i).2 = [equipmentReq i] := by
  simp only [getEquipment, equipmentReq, doGetRequest_eq]
  split
  · rfl
  · rcases (t (Req.get ("objects/equipment/" ++ pyStrOptInt i) [])).content with _ | j
    · rfl
    · cases j <;> simp [andThen, pureCall, liftDecode, jsonTruthy] <;> split <;> rfl

theorem choreLogGetDetails_ok {t : Transport} {l l2 : ChoreLog} {r : List Req}
    (h : ChoreLog.getDetails t l = (.ok l2, r)) :
    ∃ uf cr u r1 r3 r5,
      getUserfields t "chores_log" l.id = (.ok uf, r1) ∧
      getChore t l.chore_id = (.ok (some cr), r3) ∧
      getUser t l.done_by = (.ok (some u), r5) ∧
      l2 = { l with
              userfields := uf,
              chore := some (Chore.fromDetailsResponse cr),
              done_by_user := some {
                id := u.id,
                username := u.username,
                first_name := u.first_name,
                last_name := u.last_name,
                display_name := u.display_name } } ∧
      r = r1 ++ (r3 ++ (r5 ++ [])) := by
  simp only [ChoreLog.getDetails] at h
  obtain ⟨uf, r1, r2, h1, h2, hr⟩ := andThen_eq_ok h
  obtain ⟨co, r3, r4, h3, h4, hr2⟩ := andThen_eq_ok h2
  cases co with
  | none => simp at h4
  | some cr =>
    obtain ⟨uo, r5, r6, h5, h6, hr3⟩ := andThen_eq_ok h4
    cases uo with
    | none => simp at h6
    | some u =>
      simp only [pureCall, Prod.mk.injEq, Except.ok.injEq] at h6
      obtain ⟨hl2, hr6⟩ := h6
      exact ⟨uf, cr, u, r1, r3, r5, h1, h3, h5, hl2.symm,
        by rw [hr, hr2, hr3, hr6]⟩

/-- Claim C8 (amended):  Hydration over a fixed deterministic transport is
idempotent for `ChoreLog.get_details` unconditionally: a second call issues
the same three requests again and returns the identical state.  For
`Equipment.get_details` it is idempotent provided hydration preserved the
stored id (`get_details` overwrites `_id` from the payload and the second
request is formed from the *stored* id, so a details payload that echoes a
different id changes the second request). -/
theorem hydrate_idempotent_scope :
    (∀ (t : Transport) (l l2 : ChoreLog) (r : List Req),
      ChoreLog.getDetails t l = (.ok l2, r) →
      ChoreLog.getDetails t l2 = (.ok l2, r)) ∧
    (∀ (t : Transport) (e e2 : Equipment) (r : List Req),
      Equipment.getDetails t e = (.ok e2, r) → e2.id = e.id →
      Equipment.getDetails t e2 = (.ok e2, r)) := by
  constructor
  · intro t l l2 r h
    obtain ⟨uf, cr, u, r1, r3, r5, h1, h3, h5, hl2, hr⟩ := choreLogGetDetails_ok h
    have hid : l2.id = l.id := by rw [hl2]
    have hcid : l2.chore_id = l.chore_id := by rw [hl2]
    have hdid : l2.done_by = l.done_by := by rw [hl2]
    subst hr
    simp only [ChoreLog.getDetails, hid, hcid, hdid, h1, h3, h5, andThen_ok,
      pureCall]
    rw [hl2]
  · intro t e e2 r h hid
    simp only [Equipment.getDetails] at h
    obtain ⟨resp, r1, r2, h1, h2, hr⟩ := andThen_eq_ok h
    cases resp with
    | none => simp at h2
    | some d =>
      simp only [pureCall, Prod.mk.injEq, Except.ok.injEq] at h2
      obtain ⟨he2, hr2⟩ := h2
      subst hr
      simp only [Equipment.getDetails, hid, h1, andThen_ok, pureCall]
      rw [he2, hr2]

/-- Claim C8 (counterexample):  Over a fixed deterministic transport whose
details payload does not echo the requested id, `Equipment.get_details`
is *not* idempotent: the second call issues a different request
(`objects/equipment/2` instead of `objects/equipment/1`) and the state
after two calls differs from the state after one. -/
theorem hydrate_not_idempotent_for_equipment :
    Equipment.getDetails transportShiftingEquipment equipmentStart =
      (.ok equipmentAfterOne, [equipmentReq (some 1)]) ∧
    Equipment.getDetails transportShiftingEquipment equipmentAfterOne =
      (.ok equipmentAfterTwo, [equipmentReq (some 2)]) ∧
    equipmentAfterTwo ≠ equipmentAfterOne ∧
    equipmentReq (some 2) ≠ equipmentReq (some 1) :=
  ⟨rfl, rfl,
   fun hEq => absurd (congrArg Equipment.name hEq) (by decide),
   fun hEq =>
     absurd (congrArg (fun q => match q with | Req.get p _ => p | _ => "") hEq)
       (by decide)⟩

/-- Witness for `hydrate_idempotent_scope`: a hydrated chore log re-hydrates
to itself with the same three requests, and an id-echoing equipment details
payload makes equipment hydration idempotent too. -/
theorem hydrate_idempotent_scope_witness :
    ChoreLog.getDetails transportChoreLog choreLog3Hydrated =
      (.ok choreLog3Hydrated,
        [userfieldsReq "chores_log" 3, choreDetailsReq 6, usersReq]) ∧
    Equipment.getDetails transportEquipmentEcho equipmentEchoHydrated =
      (.ok equipmentEchoHydrated, [equipmentReq (some 1)]) :=
  ⟨hydrate_idempotent_scope.1 transportChoreLog choreLog3Base choreLog3Hydrated
      [userfieldsReq "chores_log" 3, choreDetailsReq 6, usersReq] rfl,
   hydrate_idempotent_scope.2 transportEquipmentEcho equipmentStart
      equipmentEchoHydrated [equipmentReq (some 1)] rfl rfl⟩

theorem choreLogGetDetails_reqs {t : Transport} {l l2 : ChoreLog}
    {r : List Req} (h : ChoreLog.getDetails t l = (.ok l2, r)) :
    r = choreLogHydrateReqs l2 ∧
    l2.id = l.id ∧ l2.chore_id = l.chore_id ∧ l2.done_by = l.done_by := by
  obtain ⟨uf, cr, u, r1, r3, r5, h1, h3, h5, hl2, hr⟩ := choreLogGetDetails_ok h
  have hid : l2.id = l.id := by rw [hl2]
  have hcid : l2.chore_id = l.chore_id := by rw [hl2]
  have hdid : l2.done_by = l.done_by := by rw [hl2]
  have e1 : r1 = [userfieldsReq "chores_log" l.id] := by
    have hl := getUserfields_log t "chores_log" l.id
    rw [h1] at hl
    exact hl
  have e3 : r3 = [choreDetailsReq l.chore_id] := by
    have hl := getChore_log t l.chore_id
    rw [h3] at hl
    exact hl
  have e5 : r5 = [usersReq] := by
    have hl := getUser_log t l.done_by
    rw [h5] at hl
    exact hl
  refine ⟨?_, hid, hcid, hdid⟩
  subst hr
  rw [e1, e3, e5]
  simp [choreLogHydrateReqs, hid, hcid]

theorem hydrateChoreLogs_ok {t : Transport} :
    ∀ {ls res : List ChoreLog} {r : List Req},
      hydrateChoreLogs t ls = (.ok res, r) →
      r = res.flatMap choreLogHydrateReqs ∧ res.length = ls.length := by
  intro ls
  induction ls with
  | nil =>
    intro res r h
    simp only [hydrateChoreLogs, pureCall, Prod.mk.injEq, Except.ok.injEq] at h
    obtain ⟨hres, hr⟩ := h
    subst hres
    subst hr
    simp
  | cons l ls ih =>
    intro res r h
    simp only [hydrateChoreLogs] at h
    obtain ⟨l2, r1, r2, h1, h2, hr⟩ := andThen_eq_ok h
    obtain ⟨ls2, r3, r4, h3, h4, hr2⟩ := andThen_eq_ok h2
    simp only [pureCall, Prod.mk.injEq, Except.ok.injEq] at h4
    obtain ⟨hres, hr4⟩ := h4
    obtain ⟨e1, _, _, _⟩ := choreLogGetDetails_reqs h1
    obtain ⟨e3, hlen⟩ := ih h3
    subst hr
    subst hr2
    subst hr4
    rw [← hres]
    simp [e1, e3, hlen]

theorem length_flatMap_hydrateReqs (res : List ChoreLog) :
    (res.flatMap choreLogHydrateReqs).length = 3 * res.length := by
  induction res with
  | nil => rfl
  | cons x xs ih =>
    simp only [List.flatMap_cons, List.length_append, ih, choreLogHydrateReqs,
      List.length_cons]
    simp
    omega

/-- Claim C1 (amended):  `ChoreLogManager.list(get_details=true)` issues exactly
`1 + 3·N` transport requests for `N` returned items: one list request
followed, for each item in list order, by the three hydrate
requests of that item — its userfields, the details of its owning chore, and the full user
list. -/
theorem chore_log_list_request_pattern (t : Transport) (qf : List String)
    (res : List ChoreLog) (reqs : List Req)
    (h : choreLogManagerList t true qf = (.ok res, reqs)) :
    reqs = choresLogReq qf :: res.flatMap choreLogHydrateReqs ∧
    reqs.length = 1 + 3 * res.length := by
  simp only [choreLogManagerList, if_true] at h
  obtain ⟨raws, r1, r2, h1, h2, hr⟩ := andThen_eq_ok h
  have e1 : r1 = [choresLogReq qf] := by
    have hl := getChoresLog_log t qf
    rw [h1] at hl
    exact hl
  obtain ⟨e2, hlen⟩ := hydrateChoreLogs_ok h2
  subst hr
  rw [e1, e2]
  refine ⟨rfl, ?_⟩
  rw [List.length_append, length_flatMap_hydrateReqs]
  simp

/-- Claim C1 (counterexample):  With one returned item, `ChoreLogManager.list
(get_details=true)` issues four transport requests — the list request plus
three hydrate requests for the single item (userfields, chore details, user
list) — not the `1 + N = 2` the claim states. -/
theorem chore_log_list_not_n_plus_one :
    choreLogManagerList transportChoreLog true [] =
      (.ok [choreLog3Hydrated],
       [choresLogReq [], userfieldsReq "chores_log" 3, choreDetailsReq 6,
        usersReq]) ∧
    (choreLogManagerList transportChoreLog true []).2.length = 4 := ⟨rfl, rfl⟩

/-- Witness for `chore_log_list_request_pattern` at the concrete one-item
transport. -/
theorem chore_log_list_request_pattern_witness :
    ([choresLogReq [], userfieldsReq "chores_log" 3, choreDetailsReq 6,
        usersReq] : List Req) =
      choresLogReq [] :: [choreLog3Hydrated].flatMap choreLogHydrateReqs ∧
    ([choresLogReq [], userfieldsReq "chores_log" 3, choreDetailsReq 6,
        usersReq] : List Req).length = 1 + 3 * [choreLog3Hydrated].length :=
  chore_log_list_request_pattern transportChoreLog [] [choreLog3Hydrated]
    [choresLogReq [], userfieldsReq "chores_log" 3, choreDetailsReq 6, usersReq]
    rfl

